import Mathlib

/-!
Shallow embedding of the `gcla` GitHub webhook client/server
(package `gcla` and `cmd/gcla-server/main.go`).

Modelling conventions:
* JSON bodies are represented as already-parsed `Json` trees; a response or
  request body that is not syntactically valid JSON is represented as
  `Except.error msg` carrying the parser's message (byte-level lexing of
  `encoding/json` is below the granularity of this embedding; a read failure
  of the body stream is conflated with a parse failure, both propagate the
  same way).
* Go JSON numerals are modelled as integers (`Int`); timestamp fields
  (`*time.Time`) are carried as opaque strings: a JSON string is accepted
  verbatim and RFC 3339 validation of its content is elided.
* Go `nil` pointers and `nil` slices are `Option.none`; this preserves the
  distinction `reflect.DeepEqual` draws between a nil slice and an empty one.
* `json.Unmarshal` into a struct is modelled field-by-field, following Go's
  semantics for the concrete struct tags in the source: unknown object keys
  are ignored, a later duplicate key overwrites an earlier one, `null` leaves
  a non-pointer, non-slice target unchanged, sets a pointer or slice target
  to nil, and a type mismatch is an error.  Go's case-insensitive key
  fallback is elided (all tags in the source are already lower-case).
  Exact decoder error strings are abbreviated; no code path in the source
  inspects them.
-/

namespace Gcla

/-- A parsed JSON value. -/
inductive Json where
  | null
  | bool (b : Bool)
  | num (n : Int)
  | str (s : String)
  | arr (elems : List Json)
  | obj (fields : List (String × Json))

/-- `type PayloadConfig struct` — webhook delivery configuration
(`url`, `content_type`). `ContentType` is a string kind in Go. -/
structure PayloadConfig where
  URL : String := ""
  ContentType : String := ""
deriving DecidableEq, Repr

/-- `type Subscription struct` — the server-assigned hook record.
`Events []Event` and the pointer fields are `Option`, `none` standing for
Go `nil`. -/
structure Subscription where
  ID : Nat := 0
  URL : String := ""
  TestURL : String := ""
  PingURL : String := ""
  Name : String := ""
  Events : Option (List String) := none
  Active : Bool := false
  Config : Option PayloadConfig := none
  UpdatedAt : Option String := none
  CreatedAt : Option String := none
deriving DecidableEq, Repr

/-- `type SubscribeRequest struct` — the caller-built hook configuration.
For marshalling, a nil and an empty `Events` slice behave identically under
`omitempty`, so a plain `List` suffices. -/
structure SubscribeRequest where
  Name : String := ""
  Active : Bool := false
  Events : List String := []
  Config : Option PayloadConfig := none
deriving Repr

/-- `type RepoSubscribeRequest struct`. -/
structure RepoSubscribeRequest where
  Owner : String
  Repo : String
  HookSubscription : Option SubscribeRequest

/-- `json.Marshal` of a `PayloadConfig` value: both fields carry
`omitempty`, so zero-valued fields are dropped. -/
def PayloadConfig.toJson (c : PayloadConfig) : Json :=
  Json.obj
    ((if c.URL = "" then [] else [("url", Json.str c.URL)]) ++
     (if c.ContentType = "" then [] else [("content_type", Json.str c.ContentType)]))

/-- `json.Marshal` of a `SubscribeRequest` value: every field carries
`omitempty` (`false`, `""`, empty slice and nil pointer are dropped). -/
def SubscribeRequest.toJson (s : SubscribeRequest) : Json :=
  Json.obj
    ((if s.Name = "" then [] else [("name", Json.str s.Name)]) ++
     (if s.Active then [("active", Json.bool s.Active)] else []) ++
     (if s.Events = [] then []
      else [("events", Json.arr (s.Events.map Json.str))]) ++
     (match s.Config with
      | none => []
      | some c => [("config", c.toJson)]))

/-- `json.Marshal(rsr.HookSubscription)`: a nil `*SubscribeRequest`
marshals to JSON `null`. -/
def marshalHookSub : Option SubscribeRequest → Json
  | none => Json.null
  | some s => s.toJson

/-- Decode one JSON array element into an `Event` (a Go string kind):
`null` leaves the element at its zero value `""`. -/
def decodeEvents : List Json → Except String (List String)
  | [] => Except.ok []
  | Json.str s :: rest => (decodeEvents rest).map (fun es => s :: es)
  | Json.null :: rest => (decodeEvents rest).map (fun es => "" :: es)
  | _ :: _ => Except.error "json: cannot unmarshal value into Event"

/-- Unmarshal one object entry into a `PayloadConfig` (tags `url`,
`content_type`); unknown keys are ignored. -/
def PayloadConfig.setField (c : PayloadConfig) : String × Json → Except String PayloadConfig
  | ("url", Json.null) => Except.ok c
  | ("url", Json.str s) => Except.ok { c with URL := s }
  | ("url", _) => Except.error "json: cannot unmarshal value into PayloadConfig.URL"
  | ("content_type", Json.null) => Except.ok c
  | ("content_type", Json.str s) => Except.ok { c with ContentType := s }
  | ("content_type", _) => Except.error "json: cannot unmarshal value into PayloadConfig.ContentType"
  | (_, _) => Except.ok c

/-- Unmarshal a JSON value into a `*PayloadConfig` field currently holding
`cur`: `null` sets the pointer to nil, an object allocates (or merges into
the existing pointee, for a duplicate key) and decodes. -/
def decodePayloadConfig (cur : Option PayloadConfig) : Json → Except String (Option PayloadConfig)
  | Json.null => Except.ok none
  | Json.obj kvs => (kvs.foldlM PayloadConfig.setField (cur.getD {})).map some
  | _ => Except.error "json: cannot unmarshal value into PayloadConfig"

/-- Unmarshal a JSON value into a `*time.Time` field: `null` sets the
pointer to nil, a string is accepted (its RFC 3339 content kept opaque). -/
def decodeTimePtr : Json → Except String (Option String)
  | Json.null => Except.ok none
  | Json.str s => Except.ok (some s)
  | _ => Except.error "json: cannot unmarshal value into time.Time"

/-- Unmarshal a JSON value into an `[]Event` field: `null` sets the slice
to nil, an array decodes element-wise. -/
def decodeEventsField : Json → Except String (Option (List String))
  | Json.null => Except.ok none
  | Json.arr xs => (decodeEvents xs).map some
  | _ => Except.error "json: cannot unmarshal value into event slice"

/-- Unmarshal a JSON value into a `uint64` field currently holding `cur`:
`null` is a no-op, a negative numeral is an error. -/
def decodeUint64 (cur : Nat) : Json → Except String Nat
  | Json.null => Except.ok cur
  | Json.num n =>
      if n < 0 then Except.error "json: cannot unmarshal negative number into uint64"
      else Except.ok n.toNat
  | _ => Except.error "json: cannot unmarshal value into uint64"

/-- Unmarshal a JSON value into a string-kind field currently holding
`cur`: `null` is a no-op. -/
def decodeGoString (cur : String) : Json → Except String String
  | Json.null => Except.ok cur
  | Json.str s => Except.ok s
  | _ => Except.error "json: cannot unmarshal value into string"

/-- Unmarshal a JSON value into a `bool` field currently holding `cur`:
`null` is a no-op. -/
def decodeGoBool (cur : Bool) : Json → Except String Bool
  | Json.null => Except.ok cur
  | Json.bool b => Except.ok b
  | _ => Except.error "json: cannot unmarshal value into bool"

/-- Unmarshal one object entry into a `Subscription`, following its struct
tags; unknown keys are ignored. -/
def Subscription.setField (s : Subscription) : String × Json → Except String Subscription
  | ("id", v) => (decodeUint64 s.ID v).map (fun x => { s with ID := x })
  | ("url", v) => (decodeGoString s.URL v).map (fun x => { s with URL := x })
  | ("test_url", v) => (decodeGoString s.TestURL v).map (fun x => { s with TestURL := x })
  | ("ping_url", v) => (decodeGoString s.PingURL v).map (fun x => { s with PingURL := x })
  | ("name", v) => (decodeGoString s.Name v).map (fun x => { s with Name := x })
  | ("events", v) => (decodeEventsField v).map (fun x => { s with Events := x })
  | ("active", v) => (decodeGoBool s.Active v).map (fun x => { s with Active := x })
  | ("config", v) => (decodePayloadConfig s.Config v).map (fun x => { s with Config := x })
  | ("updated_at", v) => (decodeTimePtr v).map (fun x => { s with UpdatedAt := x })
  | ("created_at", v) => (decodeTimePtr v).map (fun x => { s with CreatedAt := x })
  | (_, _) => Except.ok s

/-- `json.Unmarshal(blob, subs)` where `subs = new(Subscription)`: `null`
is a no-op (leaving the zero value), an object decodes field-wise, any
other value is a type error. -/
def decodeSubscription (j : Json) : Except String Subscription :=
  match j with
  | Json.null => Except.ok {}
  | Json.obj kvs => kvs.foldlM Subscription.setField {}
  | _ => Except.error "json: cannot unmarshal value into Subscription"

/-- `blankSubscription = new(Subscription)` — the zero-valued record the
decoded response is compared against with `reflect.DeepEqual`. -/
def blankSubscription : Subscription := {}

/-- `errBlankSubscription = errors.New("no subscription could be parsed")`. -/
def errBlankSubscription : String := "no subscription could be parsed"

/-- `const baseURL = "https://api.github.com"`. -/
def baseURL : String := "https://api.github.com"

/-- An outbound HTTP request; the body is carried as its parsed JSON tree. -/
structure HttpRequest where
  method : String
  url : String
  body : Json
  headers : List (String × String)

/-- An HTTP response produced by a transport.  `status` is the status line
text (Go `res.Status`, e.g. `"404 Not Found"`); the body is the result of
parsing the body bytes as JSON. -/
structure HttpResponse where
  statusCode : Nat
  status : String
  headers : List (String × String)
  body : Except String Json

/-- `http.RoundTripper`: an error models a network/transport failure. -/
def RoundTripper := HttpRequest → Except String HttpResponse

/-- `otils.StatusOK` (external helper; per the spec, exactly the 2xx
statuses are successes). -/
def statusOK (code : Nat) : Bool :=
  decide (200 ≤ code) && decide (code ≤ 299)

/-- `type Client struct` — `rt` is `none` while the Go field holds nil
(the platform default transport is then used); `mu sync.RWMutex` has no
data content and is modelled separately by the lock-event traces below. -/
structure Client where
  rt : Option RoundTripper
  apiKey : String

/-- `func (c *Client) SetHTTPRoundTripper(rt http.RoundTripper)`. -/
def Client.SetHTTPRoundTripper (c : Client) (rt : RoundTripper) : Client :=
  { c with rt := some rt }

/-- `func (c *Client) httpClient() *http.Client`: a nil `rt` falls back to
the platform's default transport (`http.Client` with a nil Transport). -/
def Client.httpClient (c : Client) (platformDefault : RoundTripper) : RoundTripper :=
  match c.rt with
  | some rt => rt
  | none => platformDefault

/-- The header mutation `doHTTPReq` performs before executing a request:
always `Add` `Accept: application/vnd.github.v3+json`, and when the stored
credential is non-empty also `Add` `Authorization: token <key>`
(`Header.Add` appends). -/
def Client.withAuthHeaders (c : Client) (req : HttpRequest) : HttpRequest :=
  let req1 : HttpRequest :=
    { req with headers := req.headers ++ [("Accept", "application/vnd.github.v3+json")] }
  if c.apiKey = "" then req1
  else { req1 with headers := req1.headers ++ [("Authorization", "token " ++ c.apiKey)] }

/-- `func (c *Client) doHTTPReq(req)`: returns Go's
`(blob []byte, header http.Header, err error)` collapsed into an `Except`,
paired with the list of requests handed to the transport (so that "issues
exactly one request" is expressible).  A non-2xx status is
`errors.New(res.Status)` and the body is never read on that path. -/
def Client.doHTTPReq (c : Client) (platformDefault : RoundTripper) (req : HttpRequest) :
    Except String (Except String Json × List (String × String)) × List HttpRequest :=
  let req := c.withAuthHeaders req
  let result : Except String (Except String Json × List (String × String)) :=
    match c.httpClient platformDefault req with
    | Except.error e => Except.error e
    | Except.ok res =>
      if statusOK res.statusCode then Except.ok (res.body, res.headers)
      else Except.error res.status
  (result, [req])

/-- `func (c *Client) SubscribeToRepo(rsr)`: marshal the hook
configuration, POST it to `{baseURL}/repos/{owner}/{repo}/hooks`, decode a
2xx body as a `Subscription` and reject a decode equal to
`blankSubscription`.  (`json.Marshal` cannot fail on these types and
`http.NewRequest` cannot fail on this URL shape, so those two error
returns have no model counterpart.)  The second component is the list of
requests issued to the transport. -/
def Client.SubscribeToRepo (c : Client) (platformDefault : RoundTripper)
    (rsr : RepoSubscribeRequest) : Except String Subscription × List HttpRequest :=
  let blob := marshalHookSub rsr.HookSubscription
  let fullURL := baseURL ++ "/repos/" ++ rsr.Owner ++ "/" ++ rsr.Repo ++ "/hooks"
  let req : HttpRequest := { method := "POST", url := fullURL, body := blob, headers := [] }
  let dres := c.doHTTPReq platformDefault req
  let result : Except String Subscription :=
    match dres.1 with
    | Except.error e => Except.error e
    | Except.ok (blob2, _) =>
      match blob2 with
      | Except.error e => Except.error e
      | Except.ok j =>
        match decodeSubscription j with
        | Except.error e => Except.error e
        | Except.ok subs =>
          if subs = blankSubscription then Except.error errBlankSubscription
          else Except.ok subs
  (result, dres.2)

/-- `const gclaEnvKey = "GCLA_GITHUB_API_KEY"`. -/
def gclaEnvKey : String := "GCLA_GITHUB_API_KEY"

/-- `otils.EnvOrAlternates(key)` with no alternates is `os.Getenv(key)`;
the process environment is a total map where an unset variable reads `""`. -/
def EnvOrAlternates (env : String → String) (key : String) : String := env key

/-- `func NewClientFromEnv() (*Client, error)`. -/
def NewClientFromEnv (env : String → String) : Except String Client :=
  let apiKey := EnvOrAlternates env gclaEnvKey
  if apiKey = "" then
    Except.error ("expecting \"" ++ gclaEnvKey ++ "\" to have been set in your environment")
  else
    Except.ok { rt := none, apiKey := apiKey }

/-- `type Hook struct` — the hook descriptor carried inside a ping
payload; pointer and slice fields are `Option`.  The Go field `Type`
(a string kind, tag `type`) is named `HookType` here because `Type` is a
Lean keyword. -/
structure Hook where
  ID : Nat := 0
  URL : String := ""
  TestURL : String := ""
  PingURL : String := ""
  Name : String := ""
  Events : Option (List String) := none
  Active : Bool := false
  Config : Option PayloadConfig := none
  UpdatedAt : Option String := none
  CreatedAt : Option String := none
  HookType : String := ""
  AppID : String := ""
deriving DecidableEq, Repr

/-- Unmarshal one object entry into a `Hook`, following its struct tags;
unknown keys are ignored. -/
def Hook.setField (h : Hook) : String × Json → Except String Hook
  | ("id", v) => (decodeUint64 h.ID v).map (fun x => { h with ID := x })
  | ("url", v) => (decodeGoString h.URL v).map (fun x => { h with URL := x })
  | ("test_url", v) => (decodeGoString h.TestURL v).map (fun x => { h with TestURL := x })
  | ("ping_url", v) => (decodeGoString h.PingURL v).map (fun x => { h with PingURL := x })
  | ("name", v) => (decodeGoString h.Name v).map (fun x => { h with Name := x })
  | ("events", v) => (decodeEventsField v).map (fun x => { h with Events := x })
  | ("active", v) => (decodeGoBool h.Active v).map (fun x => { h with Active := x })
  | ("config", v) => (decodePayloadConfig h.Config v).map (fun x => { h with Config := x })
  | ("updated_at", v) => (decodeTimePtr v).map (fun x => { h with UpdatedAt := x })
  | ("created_at", v) => (decodeTimePtr v).map (fun x => { h with CreatedAt := x })
  | ("type", v) => (decodeGoString h.HookType v).map (fun x => { h with HookType := x })
  | ("app_id", v) => (decodeGoString h.AppID v).map (fun x => { h with AppID := x })
  | (_, _) => Except.ok h

/-- Unmarshal a JSON value into the `*gcla.Hook` field: `null` sets the
pointer to nil, an object allocates (or merges) and decodes. -/
def decodeHookPtr (cur : Option Hook) : Json → Except String (Option Hook)
  | Json.null => Except.ok none
  | Json.obj kvs => (kvs.foldlM Hook.setField (cur.getD {})).map some
  | _ => Except.error "json: cannot unmarshal value into Hook"

/-- `type pingPayload struct` (`zen`, `hook_id`, `hook`) from
`cmd/gcla-server/main.go`. -/
structure pingPayload where
  Zen : String := ""
  HookID : String := ""
  Hook : Option Hook := none
deriving DecidableEq, Repr

/-- Unmarshal one object entry into a `pingPayload`; unknown keys are
ignored. -/
def pingPayload.setField (p : pingPayload) : String × Json → Except String pingPayload
  | ("zen", v) => (decodeGoString p.Zen v).map (fun x => { p with Zen := x })
  | ("hook_id", v) => (decodeGoString p.HookID v).map (fun x => { p with HookID := x })
  | ("hook", v) => (decodeHookPtr p.Hook v).map (fun x => { p with Hook := x })
  | (_, _) => Except.ok p

/-- `json.Unmarshal(blob, pPayload)` where `pPayload = new(pingPayload)`. -/
def decodePingPayload (j : Json) : Except String pingPayload :=
  match j with
  | Json.null => Except.ok {}
  | Json.obj kvs => kvs.foldlM pingPayload.setField {}
  | _ => Except.error "json: cannot unmarshal value into pingPayload"

/-- The reply the server writes for one request: status code and body
text. -/
structure ServerResponse where
  statusCode : Nat
  body : String
deriving DecidableEq, Repr

/-- `http.Error(w, msg, code)` — replies with the given message and
status code (the stdlib's trailing newline and error headers are below
this embedding's granularity). -/
def httpError (msg : String) (code : Nat) : ServerResponse :=
  { statusCode := code, body := msg }

/-- `func parseRequest(req, savPtr)` specialised to the ping route: read
the body (a read failure or JSON syntax failure is the `Except.error`
side) and `json.Unmarshal` it into a `pingPayload`. -/
def parseRequest (body : Except String Json) : Except String pingPayload :=
  match body with
  | Except.error e => Except.error e
  | Except.ok j => decodePingPayload j

/-- `func pong(w, r)` — the `/ping` handler: a decode failure becomes
`http.Error(w, err.Error(), http.StatusBadRequest)`; on success the
handler returns having written nothing, which `net/http` serves as status
200 with an empty body. -/
def pong (reqBody : Except String Json) : ServerResponse :=
  match parseRequest reqBody with
  | Except.error e => httpError e 400
  | Except.ok _ => { statusCode := 200, body := "" }

/-- The lock / shared-field events a `Client` method performs, in source
order, on the single `sync.RWMutex` `c.mu` and the fields it guards. -/
inductive LockEvent where
  | rlock
  | runlock
  | lock
  | unlock
  | readRT
  | writeRT
  | readAPIKey
deriving DecidableEq, Repr

/-- How many holders the mutex has from one thread's point of view. -/
inductive LockState where
  | unlocked
  | shared
  | exclusive
deriving DecidableEq, Repr

/-- One step of the lock discipline: field accesses are legal only under
the protection the RW mutex grants (reads under at least a shared lock,
the write to `rt` only under the exclusive lock), and lock operations
must pair up. -/
def stepLock : LockState → LockEvent → Option LockState
  | LockState.unlocked, LockEvent.rlock => some LockState.shared
  | LockState.shared, LockEvent.runlock => some LockState.unlocked
  | LockState.unlocked, LockEvent.lock => some LockState.exclusive
  | LockState.exclusive, LockEvent.unlock => some LockState.unlocked
  | LockState.shared, LockEvent.readRT => some LockState.shared
  | LockState.exclusive, LockEvent.readRT => some LockState.exclusive
  | LockState.exclusive, LockEvent.writeRT => some LockState.exclusive
  | LockState.shared, LockEvent.readAPIKey => some LockState.shared
  | LockState.exclusive, LockEvent.readAPIKey => some LockState.exclusive
  | _, _ => none

/-- Run a trace under the lock discipline; `none` marks an unguarded
field access or a mis-paired lock operation. -/
def runLock : LockState → List LockEvent → Option LockState
  | st, [] => some st
  | st, e :: rest =>
    match stepLock st e with
    | none => none
    | some st2 => runLock st2 rest

/-- A trace respects the discipline when it runs to completion and
releases every lock it took. -/
def lockDisciplineOK (evs : List LockEvent) : Bool :=
  runLock LockState.unlocked evs = some LockState.unlocked

/-- The lock state in force at each access of the `rt` field along a
trace (`none` if the trace itself is illegal). -/
def rtAccessStates : LockState → List LockEvent → Option (List (LockEvent × LockState))
  | _, [] => some []
  | st, e :: rest =>
    match stepLock st e with
    | none => none
    | some st2 =>
      if e = LockEvent.readRT ∨ e = LockEvent.writeRT then
        (rtAccessStates st2 rest).map (fun l => (e, st) :: l)
      else
        rtAccessStates st2 rest

/-- Events of `Client.httpClient`, transcribed from the source:
`c.mu.RLock(); rt := c.rt; c.mu.RUnlock()`. -/
def httpClientEvents : List LockEvent :=
  [LockEvent.rlock, LockEvent.readRT, LockEvent.runlock]

/-- Events of `Client.SetHTTPRoundTripper`, transcribed from the source:
`c.mu.Lock(); c.rt = rt; c.mu.Unlock()`. -/
def setHTTPRoundTripperEvents : List LockEvent :=
  [LockEvent.lock, LockEvent.writeRT, LockEvent.unlock]

/-- Events of `Client.doHTTPReq` (one outgoing request), transcribed from
the source: `c.mu.RLock(); read apiKey; c.mu.RUnlock()` followed by the
single `c.httpClient()` call. -/
def doHTTPReqEvents : List LockEvent :=
  [LockEvent.rlock, LockEvent.readAPIKey, LockEvent.runlock] ++ httpClientEvents

/-! ### Concrete fixtures used to instantiate the theorems below -/

/-- A transport that always fails, standing in for the platform default in
concrete instantiations. -/
def offlineTransport : RoundTripper := fun _ => Except.error "dial tcp: network unreachable"

/-- A transport that answers every request with the fixed response. -/
def transportReturning (res : HttpResponse) : RoundTripper := fun _ => Except.ok res

/-- A client with a configured transport and the given credential. -/
def clientWith (t : RoundTripper) (key : String) : Client := { rt := some t, apiKey := key }

/-- The hook configuration from the package's example file. -/
def subReqSample : SubscribeRequest :=
  { Name := "test", Active := true, Events := ["issues", "push", "pull_request"],
    Config := some { URL := "https://hooks.orijtech/gcla-test", ContentType := "json" } }

/-- The repository-addressed request from the package's example file. -/
def rsrSample : RepoSubscribeRequest :=
  { Owner := "orijtech", Repo := "gcla", HookSubscription := some subReqSample }

/-- A response body decoding to a subscription with non-zero fields. -/
def subJsonSample : Json := Json.obj [("id", Json.num 8), ("name", Json.str "web")]

/-- The record `subJsonSample` decodes to. -/
def subSample : Subscription := { ID := 8, Name := "web" }

/-- An HTTP 201 response with the given parsed body. -/
def res201 (body : Except String Json) : HttpResponse :=
  { statusCode := 201, status := "201 Created", headers := [], body := body }

/-- An HTTP 404 response; the body never matters on this path. -/
def res404 : HttpResponse :=
  { statusCode := 404, status := "404 Not Found", headers := [],
    body := Except.error "unreadable" }

/-! ### Helper lemmas -/

theorem withAuthHeaders_method (c : Client) (q : HttpRequest) :
    (c.withAuthHeaders q).method = q.method := by
  simp only [Client.withAuthHeaders]
  split <;> rfl

theorem withAuthHeaders_url (c : Client) (q : HttpRequest) :
    (c.withAuthHeaders q).url = q.url := by
  simp only [Client.withAuthHeaders]
  split <;> rfl

theorem withAuthHeaders_body (c : Client) (q : HttpRequest) :
    (c.withAuthHeaders q).body = q.body := by
  simp only [Client.withAuthHeaders]
  split <;> rfl

theorem baseURL_repos : baseURL ++ "/repos/" = "https://api.github.com/repos/" := by decide

/-- Key-shape check for the config sub-object of a marshalled
subscription configuration. -/
def configShape : Json → Bool
  | Json.obj cfg => cfg.all (fun kv => kv.1 == "url" || kv.1 == "content_type")
  | _ => false

/-- Key-shape check for a marshalled subscription configuration:
an object whose keys are among `name`, `active`, `events`, `config`, the
latter an object with keys among `url`, `content_type`. -/
def hasSubscribeShape : Json → Bool
  | Json.obj kvs =>
    kvs.all (fun kv =>
      kv.1 == "name" || kv.1 == "active" || kv.1 == "events" ||
      (kv.1 == "config" && configShape kv.2))
  | _ => false

theorem configShape_toJson (c : PayloadConfig) : configShape c.toJson = true := by
  unfold PayloadConfig.toJson configShape
  by_cases h1 : c.URL = "" <;> by_cases h2 : c.ContentType = "" <;>
    simp [h1, h2]

theorem hasSubscribeShape_toJson (s : SubscribeRequest) :
    hasSubscribeShape s.toJson = true := by
  unfold SubscribeRequest.toJson hasSubscribeShape
  by_cases h1 : s.Name = "" <;> by_cases h2 : s.Active <;>
    by_cases h3 : s.Events = [] <;> cases hc : s.Config <;>
      simp [h1, h2, h3, hc, configShape_toJson]

/-! ### The claims -/

/-- C1: a 2xx transport response whose body is valid JSON decoding to a
`Subscription` with at least one non-zero field makes `SubscribeToRepo`
return exactly the decoded record, with no error. -/
theorem SubscribeToRepo_success (c : Client) (t platformDefault : RoundTripper)
    (rsr : RepoSubscribeRequest) (res : HttpResponse) (j : Json) (s : Subscription)
    (hrt : c.rt = some t)
    (ht : ∀ q, t q = Except.ok res)
    (h2xx : statusOK res.statusCode = true)
    (hbody : res.body = Except.ok j)
    (hdec : decodeSubscription j = Except.ok s)
    (hnz : s ≠ blankSubscription) :
    (c.SubscribeToRepo platformDefault rsr).1 = Except.ok s := by
  simp only [Client.SubscribeToRepo, Client.doHTTPReq, Client.httpClient,
    hrt, ht, h2xx, hbody, hdec, if_true]
  simp [hnz]

theorem SubscribeToRepo_success_witness :
    ((clientWith (transportReturning (res201 (Except.ok subJsonSample))) "k").SubscribeToRepo
        offlineTransport rsrSample).1 = Except.ok subSample :=
  SubscribeToRepo_success _ (transportReturning (res201 (Except.ok subJsonSample)))
    offlineTransport rsrSample (res201 (Except.ok subJsonSample)) subJsonSample subSample
    rfl (fun _ => rfl) (by decide) rfl rfl (by decide)

/-- C2: a 2xx transport response whose body decodes to the zero-valued
`Subscription` (e.g. body `\x7b\x7d`) makes `SubscribeToRepo` fail with the
named error `"no subscription could be parsed"`. -/
theorem SubscribeToRepo_blank (c : Client) (t platformDefault : RoundTripper)
    (rsr : RepoSubscribeRequest) (res : HttpResponse) (j : Json)
    (hrt : c.rt = some t)
    (ht : ∀ q, t q = Except.ok res)
    (h2xx : statusOK res.statusCode = true)
    (hbody : res.body = Except.ok j)
    (hdec : decodeSubscription j = Except.ok blankSubscription) :
    (c.SubscribeToRepo platformDefault rsr).1 = Except.error errBlankSubscription ∧
    errBlankSubscription = "no subscription could be parsed" := by
  refine ⟨?_, rfl⟩
  simp only [Client.SubscribeToRepo, Client.doHTTPReq, Client.httpClient,
    hrt, ht, h2xx, hbody, hdec, if_true]

theorem SubscribeToRepo_blank_witness :
    ((clientWith (transportReturning (res201 (Except.ok (Json.obj [])))) "k").SubscribeToRepo
        offlineTransport rsrSample).1 = Except.error errBlankSubscription ∧
    errBlankSubscription = "no subscription could be parsed" :=
  SubscribeToRepo_blank _ (transportReturning (res201 (Except.ok (Json.obj []))))
    offlineTransport rsrSample (res201 (Except.ok (Json.obj []))) (Json.obj [])
    rfl (fun _ => rfl) (by decide) rfl rfl

/-- C3: a transport response with a non-2xx status makes `SubscribeToRepo`
fail with the HTTP status line as the error text; the result is the same
whatever the response body holds (the body is discarded). -/
theorem SubscribeToRepo_non2xx (c : Client) (t platformDefault : RoundTripper)
    (rsr : RepoSubscribeRequest) (res : HttpResponse)
    (hrt : c.rt = some t)
    (ht : ∀ q, t q = Except.ok res)
    (hbad : statusOK res.statusCode = false) :
    (c.SubscribeToRepo platformDefault rsr).1 = Except.error res.status := by
  simp only [Client.SubscribeToRepo, Client.doHTTPReq, Client.httpClient,
    hrt, ht, hbad, if_false]
  simp

theorem SubscribeToRepo_non2xx_witness :
    ((clientWith (transportReturning res404) "k").SubscribeToRepo
        offlineTransport rsrSample).1 = Except.error "404 Not Found" :=
  SubscribeToRepo_non2xx _ (transportReturning res404) offlineTransport rsrSample res404
    rfl (fun _ => rfl) (by decide)

/-- C4: the one request `doHTTPReq` hands to the transport is the caller's
request with `Accept: application/vnd.github.v3+json` appended; a
non-empty credential additionally appends `Authorization: token <key>`,
while an empty credential appends nothing beyond the Accept header. -/
theorem doHTTPReq_headers (c : Client) (platformDefault : RoundTripper) (q : HttpRequest) :
    (c.doHTTPReq platformDefault q).2 = [c.withAuthHeaders q] ∧
    ("Accept", "application/vnd.github.v3+json") ∈ (c.withAuthHeaders q).headers ∧
    (c.apiKey ≠ "" →
      ("Authorization", "token " ++ c.apiKey) ∈ (c.withAuthHeaders q).headers) ∧
    (c.apiKey = "" →
      (c.withAuthHeaders q).headers =
        q.headers ++ [("Accept", "application/vnd.github.v3+json")]) := by
  refine ⟨rfl, ?_, ?_, ?_⟩
  · by_cases h : c.apiKey = "" <;> simp [Client.withAuthHeaders, h]
  · intro h
    simp [Client.withAuthHeaders, h]
  · intro h
    simp [Client.withAuthHeaders, h]

theorem doHTTPReq_headers_witness :
    ("Accept", "application/vnd.github.v3+json") ∈
      ((clientWith offlineTransport "sekrit").withAuthHeaders
        { method := "GET", url := "https://api.github.com", body := Json.null,
          headers := [] }).headers ∧
    ("Authorization", "token " ++ (clientWith offlineTransport "sekrit").apiKey) ∈
      ((clientWith offlineTransport "sekrit").withAuthHeaders
        { method := "GET", url := "https://api.github.com", body := Json.null,
          headers := [] }).headers ∧
    ((clientWith offlineTransport "").withAuthHeaders
        { method := "GET", url := "https://api.github.com", body := Json.null,
          headers := [] }).headers =
      ({ method := "GET", url := "https://api.github.com", body := Json.null,
          headers := [] } : HttpRequest).headers ++
        [("Accept", "application/vnd.github.v3+json")] := by
  refine ⟨(doHTTPReq_headers (clientWith offlineTransport "sekrit") offlineTransport
      _).2.1, ?_, ?_⟩
  · exact (doHTTPReq_headers (clientWith offlineTransport "sekrit") offlineTransport
      { method := "GET", url := "https://api.github.com", body := Json.null,
        headers := [] }).2.2.1 (by decide)
  · exact (doHTTPReq_headers (clientWith offlineTransport "") offlineTransport
      { method := "GET", url := "https://api.github.com", body := Json.null,
        headers := [] }).2.2.2 rfl

/-- C5: `SubscribeToRepo` on owner `o`, repository `r` and configuration
`s` issues exactly one request; it is a POST to
`https://api.github.com/repos/o/r/hooks` whose body is the JSON encoding
of `s`, an object with keys among `name`, `active`, `events`, `config`
(the latter an object with keys among `url`, `content_type`). -/
theorem SubscribeToRepo_request (c : Client) (platformDefault : RoundTripper)
    (o r : String) (s : SubscribeRequest) :
    (c.SubscribeToRepo platformDefault
        { Owner := o, Repo := r, HookSubscription := some s }).2.length = 1 ∧
    ∀ q ∈ (c.SubscribeToRepo platformDefault
        { Owner := o, Repo := r, HookSubscription := some s }).2,
      q.method = "POST" ∧
      q.url = "https://api.github.com/repos/" ++ o ++ "/" ++ r ++ "/hooks" ∧
      q.body = s.toJson ∧
      hasSubscribeShape q.body = true := by
  have hissued : (c.SubscribeToRepo platformDefault
      { Owner := o, Repo := r, HookSubscription := some s }).2 =
      [c.withAuthHeaders
        { method := "POST",
          url := baseURL ++ "/repos/" ++ o ++ "/" ++ r ++ "/hooks",
          body := s.toJson, headers := [] }] := rfl
  refine ⟨by rw [hissued]; rfl, ?_⟩
  intro q hq
  rw [hissued, List.mem_singleton] at hq
  subst hq
  refine ⟨withAuthHeaders_method _ _, ?_, withAuthHeaders_body _ _, ?_⟩
  · rw [withAuthHeaders_url]
    show baseURL ++ "/repos/" ++ o ++ "/" ++ r ++ "/hooks" =
      "https://api.github.com/repos/" ++ o ++ "/" ++ r ++ "/hooks"
    rw [baseURL_repos]
  · rw [withAuthHeaders_body]
    exact hasSubscribeShape_toJson s

theorem SubscribeToRepo_request_witness :
    ((clientWith offlineTransport "k").withAuthHeaders
        { method := "POST",
          url := baseURL ++ "/repos/" ++ "orijtech" ++ "/" ++ "gcla" ++ "/hooks",
          body := subReqSample.toJson, headers := [] }).method = "POST" ∧
    ((clientWith offlineTransport "k").withAuthHeaders
        { method := "POST",
          url := baseURL ++ "/repos/" ++ "orijtech" ++ "/" ++ "gcla" ++ "/hooks",
          body := subReqSample.toJson, headers := [] }).url =
      "https://api.github.com/repos/" ++ "orijtech" ++ "/" ++ "gcla" ++ "/hooks" ∧
    ((clientWith offlineTransport "k").withAuthHeaders
        { method := "POST",
          url := baseURL ++ "/repos/" ++ "orijtech" ++ "/" ++ "gcla" ++ "/hooks",
          body := subReqSample.toJson, headers := [] }).body = subReqSample.toJson ∧
    hasSubscribeShape ((clientWith offlineTransport "k").withAuthHeaders
        { method := "POST",
          url := baseURL ++ "/repos/" ++ "orijtech" ++ "/" ++ "gcla" ++ "/hooks",
          body := subReqSample.toJson, headers := [] }).body = true :=
  (SubscribeToRepo_request (clientWith offlineTransport "k") offlineTransport
      "orijtech" "gcla" subReqSample).2 _ (List.mem_singleton_self _)

/-- C6: `NewClientFromEnv` fails when `GCLA_GITHUB_API_KEY` reads empty,
with an error naming that variable, and otherwise yields a client holding
the key (and no configured transport). -/
theorem NewClientFromEnv_spec (env : String → String) :
    gclaEnvKey = "GCLA_GITHUB_API_KEY" ∧
    (env gclaEnvKey = "" →
      NewClientFromEnv env =
        Except.error
          ("expecting \"" ++ gclaEnvKey ++ "\" to have been set in your environment")) ∧
    (env gclaEnvKey ≠ "" →
      NewClientFromEnv env = Except.ok { rt := none, apiKey := env gclaEnvKey }) := by
  refine ⟨rfl, ?_, ?_⟩ <;> intro h <;>
    simp [NewClientFromEnv, EnvOrAlternates, h]

theorem NewClientFromEnv_spec_witness :
    NewClientFromEnv (fun _ => "") =
      Except.error
        ("expecting \"" ++ gclaEnvKey ++ "\" to have been set in your environment") ∧
    NewClientFromEnv (fun k => if k = "GCLA_GITHUB_API_KEY" then "sekrit" else "") =
      Except.ok { rt := none, apiKey := "sekrit" } := by
  constructor
  · exact (NewClientFromEnv_spec (fun _ => "")).2.1 rfl
  · have h := (NewClientFromEnv_spec
      (fun k => if k = "GCLA_GITHUB_API_KEY" then "sekrit" else "")).2.2 (by decide)
    simpa [gclaEnvKey] using h

/-- C7: a `/ping` request whose body fails to decode as a `pingPayload` —
whether the bytes are not valid JSON at all, or the JSON does not fit the
record — is answered with status 400 and the decode error message as the
body. -/
theorem pong_bad_json (e : String) (j : Json) (perr : String)
    (hdec : decodePingPayload j = Except.error perr) :
    pong (Except.error e) = { statusCode := 400, body := e } ∧
    pong (Except.ok j) = { statusCode := 400, body := perr } := by
  exact ⟨rfl, by simp [pong, parseRequest, hdec, httpError]⟩

theorem pong_bad_json_witness :
    pong (Except.error "unexpected end of JSON input") =
      { statusCode := 400, body := "unexpected end of JSON input" } ∧
    pong (Except.ok (Json.num 3)) =
      { statusCode := 400, body := "json: cannot unmarshal value into pingPayload" } :=
  pong_bad_json "unexpected end of JSON input" (Json.num 3)
    "json: cannot unmarshal value into pingPayload" rfl

/-- C8: the lock-event traces transcribed from the client methods obey the
read/write-lock discipline: `doHTTPReq` performs exactly one read of the
`rt` field, under the shared lock, and `SetHTTPRoundTripper` performs its
single write to `rt` under the exclusive lock, every access to the guarded
fields happening inside a properly paired lock region. -/
theorem rt_lock_discipline :
    lockDisciplineOK doHTTPReqEvents = true ∧
    lockDisciplineOK setHTTPRoundTripperEvents = true ∧
    lockDisciplineOK httpClientEvents = true ∧
    rtAccessStates LockState.unlocked doHTTPReqEvents =
      some [(LockEvent.readRT, LockState.shared)] ∧
    rtAccessStates LockState.unlocked setHTTPRoundTripperEvents =
      some [(LockEvent.writeRT, LockState.exclusive)] := by
  decide

/-- C9: `SetHTTPRoundTripper` changes only the transport field — the
stored credential is untouched, so the header-augmentation applied to any
later request is unchanged. -/
theorem SetHTTPRoundTripper_frame (c : Client) (rt : RoundTripper) :
    (c.SetHTTPRoundTripper rt).apiKey = c.apiKey ∧
    (c.SetHTTPRoundTripper rt).rt = some rt ∧
    ∀ q, (c.SetHTTPRoundTripper rt).withAuthHeaders q = c.withAuthHeaders q :=
  ⟨rfl, rfl, fun _ => rfl⟩

/-- C10: a `/ping` request whose body decodes as a `pingPayload`
(the empty object included) is answered with status 200 and an empty
body, whatever the decoded payload held. -/
theorem pong_valid_json (j : Json) (p : pingPayload)
    (hdec : decodePingPayload j = Except.ok p) :
    pong (Except.ok j) = { statusCode := 200, body := "" } := by
  simp [pong, parseRequest, hdec]

theorem pong_valid_json_witness :
    pong (Except.ok (Json.obj [])) = { statusCode := 200, body := "" } :=
  pong_valid_json (Json.obj []) {} rfl

end Gcla
